import Mathlib

/-!
Shallow embedding of the NestJS items CRUD service and its request
validation pipeline (content-type/charset validator, boundary exception
filter, items service with UUID/name/date validation), together with
theorems settling the specification claims.

All definitions are translated from the TypeScript sources
(`src/common/validate-content-type.ts`,
`src/common/filters/json-parse-exception.filter.ts`,
`src/items/items.service.ts`).  JavaScript runtime primitives the code
relies on (`String.prototype.trim`, `toLowerCase`, `Date.parse` on ISO
date-only strings, `String(n)`, `padStart`) are embedded explicitly.
-/

namespace ItemsApi

/-! ## JavaScript string primitives -/

/-- Whitespace recognised by `String.prototype.trim` (ECMAScript
WhiteSpace ∪ LineTerminator: TAB, LF, VT, FF, CR, SP, NBSP, Ogham space,
the Zs range U+2000–U+200A, LS, PS, NNBSP, MMSP, ideographic space, and
ZWNBSP). -/
def jsIsWhitespace (c : Char) : Bool :=
  c.toNat = 9 || c.toNat = 10 || c.toNat = 11 || c.toNat = 12 || c.toNat = 13 ||
  c.toNat = 32 || c.toNat = 160 || c.toNat = 0x1680 ||
  (0x2000 ≤ c.toNat && c.toNat ≤ 0x200A) ||
  c.toNat = 0x2028 || c.toNat = 0x2029 || c.toNat = 0x202F ||
  c.toNat = 0x205F || c.toNat = 0x3000 || c.toNat = 0xFEFF

/-- Drop leading JS whitespace from a character list. -/
def jsTrimLeft (l : List Char) : List Char := l.dropWhile jsIsWhitespace

/-- Drop trailing JS whitespace from a character list. -/
def jsTrimRight (l : List Char) : List Char :=
  (l.reverse.dropWhile jsIsWhitespace).reverse

/-- `String.prototype.trim`. -/
def jsTrim (s : String) : String := String.mk (jsTrimRight (jsTrimLeft s.data))

/-- Whether `sub` is an initial segment of `l`. -/
def listStartsWith : List Char → List Char → Bool
  | [], _ => true
  | _ :: _, [] => false
  | a :: as, b :: bs => a == b && listStartsWith as bs

/-- Whether `sub` occurs contiguously somewhere in `l`. -/
def listOccurs (sub : List Char) : List Char → Bool
  | [] => listStartsWith sub []
  | b :: bs => listStartsWith sub (b :: bs) || listOccurs sub bs

/-- `String.prototype.toLowerCase`, adequate for the ASCII constants the
code compares against. -/
def jsToLower (s : String) : String := String.mk (s.data.map Char.toLower)

/-- `String.prototype.toUpperCase`, adequate for HTTP method tokens. -/
def jsToUpper (s : String) : String := String.mk (s.data.map Char.toUpper)

/-- Split a character list on a separator character (auxiliary for
`String.prototype.split` with a one-character separator; `acc` holds the
current chunk reversed). -/
def splitOnCharAux (c : Char) : List Char → List Char → List (List Char)
  | [], acc => [acc.reverse]
  | x :: xs, acc =>
    if x == c then acc.reverse :: splitOnCharAux c xs []
    else splitOnCharAux c xs (x :: acc)

/-- `String.prototype.split` with a one-character separator (the code
only splits on `;`, `=`, and `-`): always returns a non-empty list of
chunks. -/
def jsSplitOnChar (c : Char) (s : String) : List String :=
  (splitOnCharAux c s.data []).map String.mk

/-- `String.prototype.startsWith`. -/
def jsStartsWith (s pre : String) : Bool := listStartsWith pre.data s.data

/-- `String.prototype.includes` (substring containment). -/
def jsIncludes (s sub : String) : Bool := listOccurs sub.data s.data

/-! ## JavaScript decimal printing (`String(n)` and `padStart(2, '0')`) -/

/-- Fuel-driven decimal digit list of a natural number, most significant
digit first; with fuel ≥ the digit count this is exactly the decimal
representation `String(n)` produces. -/
def decDigitsGo : Nat → Nat → List Char
  | 0, _ => []
  | fuel + 1, n =>
    if n < 10 then [Nat.digitChar n]
    else decDigitsGo fuel (n / 10) ++ [Nat.digitChar (n % 10)]

/-- Decimal digits of `n` (fuel `n + 1` always suffices). -/
def natToDecChars (n : Nat) : List Char := decDigitsGo (n + 1) n

/-- JavaScript `String(n)` for a natural number. -/
def natToDecString (n : Nat) : String := String.mk (natToDecChars n)

/-- JavaScript `s.padStart(2, '0')`. -/
def padStart2 (s : String) : String :=
  String.mk (List.replicate (2 - s.length) '0' ++ s.data)

/-! ## Calendar dates and the embedded `Date` behaviour -/

/-- Civil calendar date (proleptic Gregorian, as `Date` UTC getters
expose it). -/
structure JsDate where
  year : Nat
  month : Nat
  day : Nat
deriving DecidableEq, Repr, Inhabited

/-- Gregorian leap-year rule. -/
def isLeapYear (y : Nat) : Bool :=
  (y % 4 = 0 && y % 100 ≠ 0) || y % 400 = 0

/-- Number of days in month `m` (1–12) of year `y`. -/
def daysInMonth (y m : Nat) : Nat :=
  if m = 2 then (if isLeapYear y then 29 else 28)
  else if m = 4 || m = 6 || m = 9 || m = 11 then 30
  else 31

/-- ECMAScript `MakeDay` rollover for a syntactically bounded date
(month 1–12, day 1–31): a day count exceeding the month's length rolls
into the following month, exactly as `new Date("1989-11-31")` denotes
1989-12-01. -/
def normalizeJsDate (y m d : Nat) : JsDate :=
  if d ≤ daysInMonth y m then ⟨y, m, d⟩
  else if m = 12 then ⟨y + 1, 1, d - daysInMonth y m⟩
  else ⟨y, m + 1, d - daysInMonth y m⟩

/-- Decimal value of a digit character. -/
def digitVal (c : Char) : Nat := c.toNat - 48

/-- ECMAScript `Date.parse` restricted to the date-only Date Time String
Format `YYYY-MM-DD` (4–2–2 decimal digits, month 01–12, day 01–31),
composed with the UTC field getters used by the formatter.  Strings the
runtime parses through other (date-time or legacy) formats never survive
the service's byte-for-byte round-trip check, so for the service's
observable behaviour they coincide with the `none` result. -/
def jsParseDate (s : String) : Option JsDate :=
  match s.data with
  | [y1, y2, y3, y4, h1, m1, m2, h2, d1, d2] =>
    if y1.isDigit && y2.isDigit && y3.isDigit && y4.isDigit &&
        h1 = '-' && m1.isDigit && m2.isDigit && h2 = '-' &&
        d1.isDigit && d2.isDigit then
      let y := digitVal y1 * 1000 + digitVal y2 * 100 + digitVal y3 * 10 + digitVal y4
      let mo := digitVal m1 * 10 + digitVal m2
      let dd := digitVal d1 * 10 + digitVal d2
      if 1 ≤ mo && mo ≤ 12 && 1 ≤ dd && dd ≤ 31 then
        some (normalizeJsDate y mo dd)
      else none
    else none
  | _ => none

/-- `formatDateToISODateString` from `items.service.ts`: the template
string `${y}-${String(m).padStart(2,'0')}-${String(day).padStart(2,'0')}`
over the UTC fields of the date (year printed without padding). -/
def formatDateToISODateString (d : JsDate) : String :=
  natToDecString d.year ++ "-" ++ padStart2 (natToDecString d.month) ++ "-" ++
    padStart2 (natToDecString d.day)

/-- `parseDateOfBirth` from `items.service.ts`: `null` when the value is
missing or blank, otherwise `Date.parse(value.trim())` with `NaN`
mapped to `null`. -/
def parseDateOfBirth (value : Option String) : Option JsDate :=
  match value with
  | none => none
  | some s => if jsTrim s = "" then none else jsParseDate (jsTrim s)

/-- `isCalendarDateValid` from `items.service.ts`: the parsed date
formats back to the trimmed input byte-for-byte. -/
def isCalendarDateValid (inputTrimmed : String) (parsed : JsDate) : Bool :=
  formatDateToISODateString parsed == inputTrimmed

/-- `isDateOfBirthProvided` from `items.service.ts`. -/
def isDateOfBirthProvided (value : Option String) : Bool :=
  match value with
  | none => false
  | some s => !(jsTrim s == "")

/-- Hexadecimal digit (either case), as in the character classes of
`UUID_REGEX`. -/
def isHexDigit (c : Char) : Bool :=
  c.isDigit || ('a' ≤ c && c ≤ 'f') || ('A' ≤ c && c ≤ 'F')

/-- `isValidUuid` from `items.service.ts`: the anchored case-insensitive
8-4-4-4-12 hexadecimal pattern of `UUID_REGEX`, expressed through the
dash-separated group structure. -/
def isValidUuid (s : String) : Bool :=
  let parts := jsSplitOnChar '-' s
  parts.map (fun p => p.length) == [8, 4, 4, 4, 12] &&
    parts.all (fun p => p.data.all isHexDigit)

/-! ## Error bodies (NestJS `HttpException` responses) -/

/-- Structured validation-error response body, the
`\x7b statusCode, error, message \x7d` triple every rejection path
produces. -/
structure ErrorBody where
  statusCode : Nat
  error : String
  message : String
deriving DecidableEq, Repr

deriving instance DecidableEq for Except

/-- Response body of `new BadRequestException(msg)`. -/
def badRequestBody (msg : String) : ErrorBody :=
  ⟨400, "Bad Request", msg⟩

/-- Response body of `new NotFoundException(msg)`. -/
def notFoundBody (msg : String) : ErrorBody :=
  ⟨404, "Not Found", msg⟩

/-- `INVALID_DATE_OF_BIRTH_MESSAGE` from `items.service.ts`. -/
def INVALID_DATE_OF_BIRTH_MESSAGE : String :=
  "Invalid date of birth; use ISO date format (YYYY-MM-DD)."

/-- The name-validation message of `ItemsService.create`. -/
def NAME_REQUIRED_MESSAGE : String :=
  "name is required and must be a non-empty string"

/-! ## Data model -/

/-- The `Item` entity: identifier, the six data fields, and the two
server-assigned timestamps (modelled as abstract instants). -/
structure Item where
  id : String
  name : String
  description : String
  dateOfBirth : Option JsDate
  sex : String
  phoneNumber : String
  address : String
  createdAt : Nat
  updatedAt : Nat
deriving DecidableEq, Repr

/-- `CreateItemDto`: `name` required at the type level but checked at
runtime, all other fields optional. -/
structure CreateItemDto where
  name : Option String := none
  description : Option String := none
  dateOfBirth : Option String := none
  sex : Option String := none
  phoneNumber : Option String := none
  address : Option String := none
deriving DecidableEq, Repr

/-- `UpdateItemDto`: every field optional; only provided fields are
applied. -/
structure UpdateItemDto where
  name : Option String := none
  description : Option String := none
  dateOfBirth : Option String := none
  sex : Option String := none
  phoneNumber : Option String := none
  address : Option String := none
deriving DecidableEq, Repr

/-! ## Persistence collaborator

The store is a list of items; `find`, `save`, `remove` follow the
TypeORM repository interface as the spec fixes it at the boundary
(`findById(id) -> record | absent`, `save` upserts on identity and
refreshes updated-at, `delete(record)` removes by identifier). -/

/-- `repository.findOne(\x7b where: \x7b id \x7d \x7d)`: first stored
record with the given identifier, if any. -/
def repoFindById (store : List Item) (id : String) : Option Item :=
  store.find? (fun it => it.id == id)

/-- Modelled from the spec: the `Item` entity's TypeORM column decorators
(`item.entity.ts` is not among the sources) make `save` refresh
`updatedAt` and leave every other field as given; identifier and
`createdAt` are never changed by a save of an existing record. -/
def repoSaveTouch (now : Nat) (it : Item) : Item :=
  { it with updatedAt := now }

/-- Modelled from the spec: `repository.remove(item)` deletes the stored
record carrying the entity's identifier (`delete(record) -> void`;
identifiers are unique across records). -/
def repoRemove (store : List Item) (item : Item) : List Item :=
  store.filter (fun it => !(it.id == item.id))

/-! ## ItemsService -/

/-- `ItemsService.create`: validate `name` (present, trimmed non-empty),
validate `dateOfBirth` when provided (parse, then byte-for-byte
round-trip), then build the entity with trimmed/defaulted fields.  The
repository `save` assigns the identifier and the two (equal) timestamps,
passed here as `assignedId` and `now`. -/
def create (dto : CreateItemDto) (assignedId : String) (now : Nat) :
    Except ErrorBody Item :=
  match dto.name with
  | none => Except.error (badRequestBody NAME_REQUIRED_MESSAGE)
  | some name =>
    if jsTrim name = "" then Except.error (badRequestBody NAME_REQUIRED_MESSAGE)
    else
      let dateOfBirth := parseDateOfBirth dto.dateOfBirth
      let build : Option JsDate → Item := fun dob =>
        { id := assignedId
          name := jsTrim name
          description := dto.description.getD ""
          dateOfBirth := dob
          sex := jsTrim (dto.sex.getD "")
          phoneNumber := jsTrim (dto.phoneNumber.getD "")
          address := jsTrim (dto.address.getD "")
          createdAt := now
          updatedAt := now }
      if isDateOfBirthProvided dto.dateOfBirth then
        match dto.dateOfBirth, dateOfBirth with
        | some s, some p =>
          if isCalendarDateValid (jsTrim s) p then Except.ok (build (some p))
          else Except.error (badRequestBody INVALID_DATE_OF_BIRTH_MESSAGE)
        | _, _ => Except.error (badRequestBody INVALID_DATE_OF_BIRTH_MESSAGE)
      else Except.ok (build dateOfBirth)

/-- `ItemsService.findOne`, instrumented with whether the repository's
find operation was invoked: the UUID-format check precedes any store
access; a well-formed but absent identifier yields the 404 error. -/
def findOne (store : List Item) (id : String) :
    Except ErrorBody Item × Bool :=
  if !(isValidUuid id) then
    (Except.error (badRequestBody "Invalid UUID format"), false)
  else
    match repoFindById store id with
    | none =>
      (Except.error (notFoundBody ("Item with id \"" ++ id ++ "\" not found")), true)
    | some item => (Except.ok item, true)

/-- Update assignment for `name`: a provided value is assigned directly
(no validation, no trimming). -/
def applyName (item : Item) (dto : UpdateItemDto) : Item :=
  match dto.name with
  | some n => { item with name := n }
  | none => item

/-- Update assignment for `description` (assigned directly). -/
def applyDescription (item : Item) (dto : UpdateItemDto) : Item :=
  match dto.description with
  | some d => { item with description := d }
  | none => item

/-- Update assignment for `dateOfBirth`: when the field is present, a
non-blank value must parse and round-trip or the date error is raised;
the parsed value (null for a blank input) is then assigned. -/
def applyDateOfBirth (item : Item) (dto : UpdateItemDto) :
    Except ErrorBody Item :=
  match dto.dateOfBirth with
  | none => Except.ok item
  | some s =>
    let parsed := parseDateOfBirth (some s)
    if isDateOfBirthProvided (some s) then
      match parsed with
      | none => Except.error (badRequestBody INVALID_DATE_OF_BIRTH_MESSAGE)
      | some p =>
        if isCalendarDateValid (jsTrim s) p then
          Except.ok { item with dateOfBirth := parsed }
        else Except.error (badRequestBody INVALID_DATE_OF_BIRTH_MESSAGE)
    else Except.ok { item with dateOfBirth := parsed }

/-- Update assignment for `sex` (trimmed). -/
def applySex (item : Item) (dto : UpdateItemDto) : Item :=
  match dto.sex with
  | some v => { item with sex := jsTrim v }
  | none => item

/-- Update assignment for `phoneNumber` (trimmed). -/
def applyPhoneNumber (item : Item) (dto : UpdateItemDto) : Item :=
  match dto.phoneNumber with
  | some v => { item with phoneNumber := jsTrim v }
  | none => item

/-- Update assignment for `address` (trimmed). -/
def applyAddress (item : Item) (dto : UpdateItemDto) : Item :=
  match dto.address with
  | some v => { item with address := jsTrim v }
  | none => item

/-- The field-assignment block of `ItemsService.update`, in source
order: name, description, dateOfBirth (may raise), sex, phoneNumber,
address. -/
def applyUpdate (item : Item) (dto : UpdateItemDto) :
    Except ErrorBody Item :=
  match applyDateOfBirth (applyDescription (applyName item dto) dto) dto with
  | Except.error e => Except.error e
  | Except.ok it =>
    Except.ok (applyAddress (applyPhoneNumber (applySex it dto) dto) dto)

/-- `ItemsService.update`: load via `findOne` (inheriting its 400/404
behaviour and store-access trace), apply the partial update, save (which
refreshes `updatedAt`). -/
def update (store : List Item) (id : String) (dto : UpdateItemDto)
    (now : Nat) : Except ErrorBody Item × Bool :=
  match findOne store id with
  | (Except.error e, b) => (Except.error e, b)
  | (Except.ok item, b) =>
    match applyUpdate item dto with
    | Except.error e => (Except.error e, b)
    | Except.ok it => (Except.ok (repoSaveTouch now it), b)

/-- `ItemsService.remove`: load via `findOne`, delete from the store,
return the removed record's last known state together with the store
after removal. -/
def remove (store : List Item) (id : String) :
    Except ErrorBody (Item × List Item) × Bool :=
  match findOne store id with
  | (Except.error e, b) => (Except.error e, b)
  | (Except.ok item, b) => (Except.ok (item, repoRemove store item), b)

/-! ## Content-Type / charset validator (`validate-content-type.ts`) -/

/-- `BODY_METHODS`. -/
def BODY_METHODS : List String := ["POST", "PATCH", "PUT"]

/-- `CONTENT_TYPE_JSON`. -/
def CONTENT_TYPE_JSON : String := "application/json"

/-- `SUPPORTED_CHARSETS`. -/
def SUPPORTED_CHARSETS : List String := ["utf-8", "utf8"]

/-- `CONTENT_TYPE_ERROR_BODY`. -/
def CONTENT_TYPE_ERROR_BODY : ErrorBody :=
  ⟨400, "Bad Request",
    "Content-Type must be application/json. Send the request body in JSON format."⟩

/-- `CHARSET_ERROR_BODY`. -/
def CHARSET_ERROR_BODY : ErrorBody :=
  ⟨400, "Bad Request",
    "Unsupported or invalid encoding. Use an encoding that can be decoded (e.g. UTF-8: Content-Type: application/json; charset=utf-8)."⟩

/-- A `content-type` header slot as Node exposes it: absent, a single
string, or an array of strings. -/
inductive HeaderValue
  | missing
  | str (s : String)
  | arr (l : List String)
deriving DecidableEq, Repr

/-- The header-to-string coercion at the top of
`getContentTypeValidationError`: a string is used as is, a non-empty
array contributes its first element, anything else is the empty
string. -/
def headerToContentType : HeaderValue → String
  | .missing => ""
  | .str s => s
  | .arr [] => ""
  | .arr (h :: _) => h

/-- The quote-stripping regex replace
`.replace(/^["']|["']$/g, '')`: one leading and one trailing quote
character (double or single) removed. -/
def stripSurroundingQuotes (s : String) : String :=
  let isQuote : Char → Bool := fun c => c == '"' || c == Char.ofNat 39
  let afterLead : List Char :=
    match s.data with
    | [] => []
    | c :: rest => if isQuote c then rest else c :: rest
  let afterTrail : List Char :=
    match afterLead.reverse with
    | [] => []
    | c :: rest => if isQuote c then rest.reverse else afterLead
  String.mk afterTrail

/-- The charset value as the code extracts it: the text after the first
`=` of the matched parameter segment, trimmed, lower-cased, and then
quote-stripped (in that order). -/
def extractCharset (charsetPart : String) : String :=
  let rawCharset := ((jsSplitOnChar '=' charsetPart).drop 1).headD ""
  stripSurroundingQuotes (jsToLower (jsTrim rawCharset))

/-- The content-type checks of `getContentTypeValidationError` after
the method gate: missing/blank or non-`application/json` first segment
gives the Content-Type error; a charset parameter with a non-empty,
non-UTF-8 extracted value gives the charset error. -/
def checkJsonContentType (contentType : String) : Option ErrorBody :=
  if jsTrim contentType = "" then some CONTENT_TYPE_ERROR_BODY
  else
    let normalized := jsToLower (jsTrim ((jsSplitOnChar ';' contentType).headD ""))
    if normalized ≠ CONTENT_TYPE_JSON then some CONTENT_TYPE_ERROR_BODY
    else
      match ((jsSplitOnChar ';' contentType).drop 1).find?
          (fun p => jsStartsWith (jsToLower (jsTrim p)) "charset=") with
      | none => none
      | some charsetPart =>
        let charset := extractCharset charsetPart
        if charset ≠ "" && !(SUPPORTED_CHARSETS.contains charset) then
          some CHARSET_ERROR_BODY
        else none

/-- `getContentTypeValidationError`: no check outside the body-bearing
methods (compared after upper-casing), otherwise the content-type and
charset checks on the header value. -/
def getContentTypeValidationError (method : String) (header : HeaderValue) :
    Option ErrorBody :=
  if !(BODY_METHODS.contains (jsToUpper method)) then none
  else checkJsonContentType (headerToContentType header)

/-! ## Boundary exception filter (`json-parse-exception.filter.ts`) -/

/-- `JSON_PARSE_ERROR_MESSAGE`. -/
def JSON_PARSE_ERROR_MESSAGE : String := "Request body must be valid JSON."

/-- `ENCODING_ERROR_MESSAGE`. -/
def ENCODING_ERROR_MESSAGE : String :=
  "Request body could not be decoded. Use an encoding that can be decoded (e.g. UTF-8)."

/-- An exception as the filter observes it: whether it is a
`SyntaxError`, whether it is an `HttpException` (and then its status and
structured response body), the plain `statusCode`/`status` data
properties, and the `message` property. -/
structure JsException where
  isSyntaxError : Bool := false
  http : Option (Nat × ErrorBody) := none
  statusCode : Option Nat := none
  status : Option Nat := none
  message : Option String := none
deriving DecidableEq, Repr

/-- `isEncodingError`: false for any `HttpException`; otherwise the
lower-cased message must contain one of the encoding trigger substrings
(or both "utf" and "invalid"). -/
def isEncodingError (e : JsException) : Bool :=
  if e.http.isSome then false
  else
    let lower := jsToLower (e.message.getD "")
    jsIncludes lower "encoding" ||
    jsIncludes lower "charset" ||
    jsIncludes lower "decode" ||
    jsIncludes lower "invalid utf" ||
    jsIncludes lower "invalid character" ||
    jsIncludes lower "invalid byte" ||
    (jsIncludes lower "utf" && jsIncludes lower "invalid")

/-- `isJsonParseError`: any `SyntaxError` qualifies; otherwise any
`HttpException` is excluded; otherwise status 400 (via
`statusCode ?? status`) with a message mentioning json / unexpected
token / parse qualifies. -/
def isJsonParseError (e : JsException) : Bool :=
  if e.isSyntaxError then true
  else if e.http.isSome then false
  else
    let status := e.statusCode.orElse (fun _ => e.status)
    let message := e.message.getD ""
    if status == some 400 then
      let lower := jsToLower message
      jsIncludes lower "json" ||
      jsIncludes lower "unexpected token" ||
      jsIncludes lower "parse"
    else false

/-- `JsonParseExceptionFilter.catch`: encoding error, then JSON parse
error, then verbatim forwarding of structured domain errors, then the
generic 500. -/
def catchException (e : JsException) : Nat × ErrorBody :=
  if isEncodingError e then
    (400, ⟨400, "Bad Request", ENCODING_ERROR_MESSAGE⟩)
  else if isJsonParseError e then
    (400, ⟨400, "Bad Request", JSON_PARSE_ERROR_MESSAGE⟩)
  else
    match e.http with
    | some (status, body) => (status, body)
    | none =>
      (500, ⟨500, "Internal Server Error", "An unexpected error occurred."⟩)

/-! ## Frame lemmas for the partial-update assignments -/

/-- `applyName` touches only `name`, and leaves `name` alone when the
field is absent. -/
theorem applyName_frame (item : Item) (dto : UpdateItemDto) :
    (applyName item dto).id = item.id ∧
    (applyName item dto).description = item.description ∧
    (applyName item dto).dateOfBirth = item.dateOfBirth ∧
    (applyName item dto).sex = item.sex ∧
    (applyName item dto).phoneNumber = item.phoneNumber ∧
    (applyName item dto).address = item.address ∧
    (applyName item dto).createdAt = item.createdAt ∧
    (applyName item dto).updatedAt = item.updatedAt ∧
    (dto.name = none → (applyName item dto).name = item.name) := by
  cases h : dto.name <;> simp [applyName, h]

/-- `applyDescription` touches only `description`. -/
theorem applyDescription_frame (item : Item) (dto : UpdateItemDto) :
    (applyDescription item dto).id = item.id ∧
    (applyDescription item dto).name = item.name ∧
    (applyDescription item dto).dateOfBirth = item.dateOfBirth ∧
    (applyDescription item dto).sex = item.sex ∧
    (applyDescription item dto).phoneNumber = item.phoneNumber ∧
    (applyDescription item dto).address = item.address ∧
    (applyDescription item dto).createdAt = item.createdAt ∧
    (applyDescription item dto).updatedAt = item.updatedAt ∧
    (dto.description = none →
      (applyDescription item dto).description = item.description) := by
  cases h : dto.description <;> simp [applyDescription, h]

/-- A successful `applyDateOfBirth` touches only `dateOfBirth`. -/
theorem applyDateOfBirth_frame (item : Item) (dto : UpdateItemDto) (r : Item)
    (h : applyDateOfBirth item dto = Except.ok r) :
    r.id = item.id ∧ r.name = item.name ∧ r.description = item.description ∧
    r.sex = item.sex ∧ r.phoneNumber = item.phoneNumber ∧
    r.address = item.address ∧ r.createdAt = item.createdAt ∧
    r.updatedAt = item.updatedAt ∧
    (dto.dateOfBirth = none → r.dateOfBirth = item.dateOfBirth) := by
  cases hd : dto.dateOfBirth with
  | none =>
    simp only [applyDateOfBirth, hd, Except.ok.injEq] at h
    subst h
    simp
  | some s =>
    have hvac : dto.dateOfBirth = none → r.dateOfBirth = item.dateOfBirth := by
      intro hn
      rw [hd] at hn
      cases hn
    simp only [applyDateOfBirth, hd] at h
    by_cases hp : isDateOfBirthProvided (some s) = true
    · rw [if_pos hp] at h
      cases hps : parseDateOfBirth (some s) with
      | none =>
        rw [hps] at h
        cases h
      | some p =>
        rw [hps] at h
        dsimp only at h
        by_cases hc : isCalendarDateValid (jsTrim s) p = true
        · rw [if_pos hc] at h
          simp only [Except.ok.injEq] at h
          subst h
          simp [hvac]
        · rw [if_neg hc] at h
          cases h
    · rw [if_neg hp] at h
      simp only [Except.ok.injEq] at h
      subst h
      simp [hvac]

/-- `applySex` touches only `sex`. -/
theorem applySex_frame (item : Item) (dto : UpdateItemDto) :
    (applySex item dto).id = item.id ∧
    (applySex item dto).name = item.name ∧
    (applySex item dto).description = item.description ∧
    (applySex item dto).dateOfBirth = item.dateOfBirth ∧
    (applySex item dto).phoneNumber = item.phoneNumber ∧
    (applySex item dto).address = item.address ∧
    (applySex item dto).createdAt = item.createdAt ∧
    (applySex item dto).updatedAt = item.updatedAt ∧
    (dto.sex = none → (applySex item dto).sex = item.sex) := by
  cases h : dto.sex <;> simp [applySex, h]

/-- `applyPhoneNumber` touches only `phoneNumber`. -/
theorem applyPhoneNumber_frame (item : Item) (dto : UpdateItemDto) :
    (applyPhoneNumber item dto).id = item.id ∧
    (applyPhoneNumber item dto).name = item.name ∧
    (applyPhoneNumber item dto).description = item.description ∧
    (applyPhoneNumber item dto).dateOfBirth = item.dateOfBirth ∧
    (applyPhoneNumber item dto).sex = item.sex ∧
    (applyPhoneNumber item dto).address = item.address ∧
    (applyPhoneNumber item dto).createdAt = item.createdAt ∧
    (applyPhoneNumber item dto).updatedAt = item.updatedAt ∧
    (dto.phoneNumber = none →
      (applyPhoneNumber item dto).phoneNumber = item.phoneNumber) := by
  cases h : dto.phoneNumber <;> simp [applyPhoneNumber, h]

/-- `applyAddress` touches only `address`. -/
theorem applyAddress_frame (item : Item) (dto : UpdateItemDto) :
    (applyAddress item dto).id = item.id ∧
    (applyAddress item dto).name = item.name ∧
    (applyAddress item dto).description = item.description ∧
    (applyAddress item dto).dateOfBirth = item.dateOfBirth ∧
    (applyAddress item dto).sex = item.sex ∧
    (applyAddress item dto).phoneNumber = item.phoneNumber ∧
    (applyAddress item dto).createdAt = item.createdAt ∧
    (applyAddress item dto).updatedAt = item.updatedAt ∧
    (dto.address = none → (applyAddress item dto).address = item.address) := by
  cases h : dto.address <;> simp [applyAddress, h]

/-- A successful `applyUpdate` keeps the identifier, the creation
timestamp, and every field the partial input does not supply. -/
theorem applyUpdate_frame (item : Item) (dto : UpdateItemDto) (r : Item)
    (h : applyUpdate item dto = Except.ok r) :
    r.id = item.id ∧ r.createdAt = item.createdAt ∧
    r.updatedAt = item.updatedAt ∧
    (dto.name = none → r.name = item.name) ∧
    (dto.description = none → r.description = item.description) ∧
    (dto.dateOfBirth = none → r.dateOfBirth = item.dateOfBirth) ∧
    (dto.sex = none → r.sex = item.sex) ∧
    (dto.phoneNumber = none → r.phoneNumber = item.phoneNumber) ∧
    (dto.address = none → r.address = item.address) := by
  unfold applyUpdate at h
  cases hdob : applyDateOfBirth (applyDescription (applyName item dto) dto) dto with
  | error e => rw [hdob] at h; cases h
  | ok it =>
    rw [hdob] at h
    simp only [Except.ok.injEq] at h
    subst h
    obtain ⟨n1, n2, n3, n4, n5, n6, n7, n8, n9⟩ := applyName_frame item dto
    obtain ⟨d1, d2, d3, d4, d5, d6, d7, d8, d9⟩ :=
      applyDescription_frame (applyName item dto) dto
    obtain ⟨b1, b2, b3, b4, b5, b6, b7, b8, b9⟩ :=
      applyDateOfBirth_frame (applyDescription (applyName item dto) dto) dto it hdob
    obtain ⟨s1, s2, s3, s4, s5, s6, s7, s8, s9⟩ := applySex_frame it dto
    obtain ⟨p1, p2, p3, p4, p5, p6, p7, p8, p9⟩ :=
      applyPhoneNumber_frame (applySex it dto) dto
    obtain ⟨a1, a2, a3, a4, a5, a6, a7, a8, a9⟩ :=
      applyAddress_frame (applyPhoneNumber (applySex it dto) dto) dto
    refine ⟨?_, ?_, ?_, ?_, ?_, ?_, ?_, ?_, ?_⟩
    · rw [a1, p1, s1, b1, d1, n1]
    · rw [a7, p7, s7, b7, d7, n7]
    · rw [a8, p8, s8, b8, d8, n8]
    · intro hn; rw [a2, p2, s2, b2, d2, n9 hn]
    · intro hn; rw [a3, p3, s3, b3, d9 hn, n2]
    · intro hn; rw [a4, p4, s4, b9 hn, d3, n3]
    · intro hn; rw [a5, p5, s9 hn, b4, d4, n4]
    · intro hn; rw [a6, p9 hn, s5, b5, d5, n5]
    · intro hn; rw [a9 hn, p6, s6, b6, d6, n6]

/-- After removing a record, no record with its identifier remains
findable. -/
theorem repoFindById_after_remove (store : List Item) (x : Item) :
    repoFindById (repoRemove store x) x.id = none := by
  unfold repoFindById repoRemove
  rw [List.find?_eq_none]
  intro y hy
  have hmem := List.mem_filter.mp hy
  simpa using hmem.2

/-- A record returned by `repoFindById` carries the queried
identifier. -/
theorem repoFindById_id (store : List Item) (id : String) (item : Item)
    (h : repoFindById store id = some item) : item.id = id := by
  unfold repoFindById at h
  have := List.find?_some h
  simpa using this

/-- C5: an identifier failing the UUID format check makes read-one,
update, and delete fail with 400 "Invalid UUID format" without any
store access; a well-formed identifier bound to no record makes all
three fail with the 404 message containing the identifier. -/
theorem claim_C5_uuid_check_precedes_store (store : List Item) (id : String)
    (dto : UpdateItemDto) (now : Nat) :
    (isValidUuid id = false →
      findOne store id = (Except.error (badRequestBody "Invalid UUID format"), false) ∧
      update store id dto now =
        (Except.error (badRequestBody "Invalid UUID format"), false) ∧
      remove store id = (Except.error (badRequestBody "Invalid UUID format"), false)) ∧
    (isValidUuid id = true → repoFindById store id = none →
      findOne store id =
        (Except.error (notFoundBody ("Item with id \"" ++ id ++ "\" not found")), true) ∧
      update store id dto now =
        (Except.error (notFoundBody ("Item with id \"" ++ id ++ "\" not found")), true) ∧
      remove store id =
        (Except.error (notFoundBody ("Item with id \"" ++ id ++ "\" not found")), true)) := by
  constructor
  · intro hv
    refine ⟨?_, ?_, ?_⟩ <;> simp [findOne, update, remove, hv]
  · intro hv hf
    refine ⟨?_, ?_, ?_⟩ <;> simp [findOne, update, remove, hv, hf]

/-- Witness for C5 at concrete inputs: the malformed identifier
`"not-a-uuid"` and the well-formed absent identifier of all zeros. -/
theorem claim_C5_witness :
    findOne [] "not-a-uuid" =
      (Except.error (badRequestBody "Invalid UUID format"), false) ∧
    findOne [] "00000000-0000-0000-0000-000000000000" =
      (Except.error (notFoundBody
        ("Item with id \"00000000-0000-0000-0000-000000000000\" not found")), true) := by
  constructor
  · exact ((claim_C5_uuid_check_precedes_store [] "not-a-uuid" {} 0).1 (by decide)).1
  · exact ((claim_C5_uuid_check_precedes_store []
      "00000000-0000-0000-0000-000000000000" {} 0).2 (by decide) rfl).1

/-- C8: deleting an existing record succeeds with the record's last
known state, and a second delete of the same identifier fails 404
because the record is gone from the store. -/
theorem claim_C8_delete_then_404 (store : List Item) (id : String) (item : Item)
    (hv : isValidUuid id = true) (hf : repoFindById store id = some item) :
    remove store id = (Except.ok (item, repoRemove store item), true) ∧
    remove (repoRemove store item) id =
      (Except.error (notFoundBody ("Item with id \"" ++ id ++ "\" not found")), true) := by
  have hid : item.id = id := repoFindById_id store id item hf
  constructor
  · simp [remove, findOne, hv, hf]
  · have hnone : repoFindById (repoRemove store item) id = none := by
      rw [← hid]
      exact repoFindById_after_remove store item
    simp [remove, findOne, hv, hnone]

/-- Witness for C8: a one-element store; the second delete 404s. -/
theorem claim_C8_witness :
    remove [⟨"11111111-1111-1111-1111-111111111111", "Gone", "", none, "", "", "", 1, 1⟩]
        "11111111-1111-1111-1111-111111111111" =
      (Except.ok
        (⟨"11111111-1111-1111-1111-111111111111", "Gone", "", none, "", "", "", 1, 1⟩, []),
       true) ∧
    remove [] "11111111-1111-1111-1111-111111111111" =
      (Except.error (notFoundBody
        ("Item with id \"11111111-1111-1111-1111-111111111111\" not found")), true) := by
  have h := claim_C8_delete_then_404
    [⟨"11111111-1111-1111-1111-111111111111", "Gone", "", none, "", "", "", 1, 1⟩]
    "11111111-1111-1111-1111-111111111111"
    ⟨"11111111-1111-1111-1111-111111111111", "Gone", "", none, "", "", "", 1, 1⟩
    (by decide) (by decide)
  exact ⟨h.1, h.2⟩

/-- C6: an exception that is neither an encoding nor a JSON-parse match
is forwarded verbatim when it carries a structured status and body, and
otherwise becomes the generic 500 with the fixed message. -/
theorem claim_C6_forward_or_500 (e : JsException)
    (h1 : isEncodingError e = false) (h2 : isJsonParseError e = false) :
    (∀ st b, e.http = some (st, b) → catchException e = (st, b)) ∧
    (e.http = none →
      catchException e =
        (500, ⟨500, "Internal Server Error", "An unexpected error occurred."⟩)) := by
  constructor
  · intro st b hb
    simp [catchException, h1, h2, hb]
  · intro hb
    simp [catchException, h1, h2, hb]

/-- Witness for C6: a domain 404 is forwarded verbatim, and a plain
error becomes the generic 500. -/
theorem claim_C6_witness :
    catchException { http := some (404, notFoundBody "gone") } =
      (404, notFoundBody "gone") ∧
    catchException { message := some "boom" } =
      (500, ⟨500, "Internal Server Error", "An unexpected error occurred."⟩) := by
  constructor
  · exact (claim_C6_forward_or_500 { http := some (404, notFoundBody "gone") }
      (by decide) (by decide)).1 404 (notFoundBody "gone") rfl
  · exact (claim_C6_forward_or_500 { message := some "boom" }
      (by decide) (by decide)).2 rfl

/-- C9: for any method whose upper-cased form is outside
POST/PATCH/PUT (HTTP methods are upper-case tokens), the validator
returns no error for every header shape. -/
theorem claim_C9_non_body_methods_pass (m : String) (h : HeaderValue)
    (hupper : jsToUpper m = m) (hnot : m ∉ BODY_METHODS) :
    getContentTypeValidationError m h = none := by
  have hc : BODY_METHODS.contains m = false := by
    simp only [BODY_METHODS, List.mem_cons, List.not_mem_nil, or_false, not_or] at hnot
    simp [BODY_METHODS, List.contains_cons, hnot.1, hnot.2.1, hnot.2.2]
  unfold getContentTypeValidationError
  rw [hupper, hc]
  rfl

/-- Witness for C9: a GET with an HTML content type passes. -/
theorem claim_C9_witness :
    getContentTypeValidationError "GET" (.str "text/html") = none :=
  claim_C9_non_body_methods_pass "GET" (.str "text/html") (by decide) (by decide)

/-- C4 (amended): rule 1 — a non-structured exception whose lower-cased
message contains an encoding trigger gets the 400 decoding response,
before any other rule; rule 2 — a syntax/parse-type error, or a
non-structured exception with status 400 and a json/unexpected
token/parse message, gets the 400 JSON response, provided rule 1 did not
match; structured exceptions never match the status-400 branch of
rule 2. -/
theorem claim_C4_normalizer_rules (e : JsException) :
    (e.http = none →
      (jsIncludes (jsToLower (e.message.getD "")) "encoding" ||
       jsIncludes (jsToLower (e.message.getD "")) "charset" ||
       jsIncludes (jsToLower (e.message.getD "")) "decode" ||
       jsIncludes (jsToLower (e.message.getD "")) "invalid utf" ||
       jsIncludes (jsToLower (e.message.getD "")) "invalid character" ||
       jsIncludes (jsToLower (e.message.getD "")) "invalid byte" ||
       (jsIncludes (jsToLower (e.message.getD "")) "utf" &&
        jsIncludes (jsToLower (e.message.getD "")) "invalid")) = true →
      catchException e = (400, ⟨400, "Bad Request", ENCODING_ERROR_MESSAGE⟩)) ∧
    (e.isSyntaxError = true → isEncodingError e = false →
      catchException e = (400, ⟨400, "Bad Request", JSON_PARSE_ERROR_MESSAGE⟩)) ∧
    (e.http = none → e.isSyntaxError = false → isEncodingError e = false →
      e.statusCode.orElse (fun _ => e.status) = some 400 →
      (jsIncludes (jsToLower (e.message.getD "")) "json" ||
       jsIncludes (jsToLower (e.message.getD "")) "unexpected token" ||
       jsIncludes (jsToLower (e.message.getD "")) "parse") = true →
      catchException e = (400, ⟨400, "Bad Request", JSON_PARSE_ERROR_MESSAGE⟩)) := by
  refine ⟨?_, ?_, ?_⟩
  · intro hhttp htrig
    have he : isEncodingError e = true := by
      unfold isEncodingError
      rw [hhttp]
      simpa using htrig
    simp [catchException, he]
  · intro hsyn henc
    have hj : isJsonParseError e = true := by
      unfold isJsonParseError
      rw [hsyn]
      rfl
    simp [catchException, henc, hj]
  · intro hhttp hsyn henc hst htrig
    have hj : isJsonParseError e = true := by
      unfold isJsonParseError
      rw [hsyn, hhttp, hst]
      simpa using htrig
    simp [catchException, henc, hj]

/-- C4 counterexample: a structured domain 400 whose message mentions
"parse" satisfies the claim's rule-2 premise (status 400, message
mentioning "parse", no encoding trigger) but the code forwards the
domain body verbatim instead of emitting the fixed JSON-parse
message. -/
theorem claim_C4_counterexample :
    (let e : JsException :=
      { isSyntaxError := false,
        http := some (400, badRequestBody "could not parse id"),
        statusCode := none, status := some 400,
        message := some "could not parse id" }
     e.status = some 400 ∧
     jsIncludes (jsToLower (e.message.getD "")) "parse" = true ∧
     isEncodingError e = false ∧
     catchException e = (400, badRequestBody "could not parse id") ∧
     catchException e ≠ (400, ⟨400, "Bad Request", JSON_PARSE_ERROR_MESSAGE⟩)) := by
  decide

/-- Witness for C4: a non-structured exception mentioning "charset" gets
the 400 decoding response through rule 1. -/
theorem claim_C4_witness :
    catchException { message := some "unsupported charset" } =
      (400, ⟨400, "Bad Request", ENCODING_ERROR_MESSAGE⟩) :=
  (claim_C4_normalizer_rules { message := some "unsupported charset" }).1
    rfl (by decide)

/-- C7: a successful update changes only the fields present in the
partial input; identifier and created-at are never changed. -/
theorem claim_C7_partial_update_frame (store : List Item) (id : String)
    (dto : UpdateItemDto) (now : Nat) (item result : Item)
    (hfind : (findOne store id).1 = Except.ok item)
    (hupd : (update store id dto now).1 = Except.ok result) :
    result.id = item.id ∧ result.createdAt = item.createdAt ∧
    (dto.name = none → result.name = item.name) ∧
    (dto.description = none → result.description = item.description) ∧
    (dto.dateOfBirth = none → result.dateOfBirth = item.dateOfBirth) ∧
    (dto.sex = none → result.sex = item.sex) ∧
    (dto.phoneNumber = none → result.phoneNumber = item.phoneNumber) ∧
    (dto.address = none → result.address = item.address) := by
  rcases hp : findOne store id with ⟨res, b⟩
  rw [hp] at hfind
  dsimp only at hfind
  subst hfind
  unfold update at hupd
  rw [hp] at hupd
  dsimp only at hupd
  cases hau : applyUpdate item dto with
  | error err => rw [hau] at hupd; simp at hupd
  | ok it =>
    rw [hau] at hupd
    simp only [Except.ok.injEq] at hupd
    subst hupd
    obtain ⟨f1, f2, _, f4, f5, f6, f7, f8, f9⟩ := applyUpdate_frame item dto it hau
    exact ⟨f1, f2, f4, f5, f6, f7, f8, f9⟩

/-- Witness for C7: updating only the description leaves every other
field, the identifier, and created-at unchanged. -/
theorem claim_C7_witness :
    ((update [⟨"11111111-1111-1111-1111-111111111111", "Old", "d", none, "", "", "", 1, 1⟩]
        "11111111-1111-1111-1111-111111111111" { description := some "new" } 7).1 =
      Except.ok ⟨"11111111-1111-1111-1111-111111111111", "Old", "new", none, "", "", "", 1, 7⟩) ∧
    (⟨"11111111-1111-1111-1111-111111111111", "Old", "new", none, "", "", "", 1, 7⟩ : Item).id =
      (⟨"11111111-1111-1111-1111-111111111111", "Old", "d", none, "", "", "", 1, 1⟩ : Item).id ∧
    (⟨"11111111-1111-1111-1111-111111111111", "Old", "new", none, "", "", "", 1, 7⟩ : Item).createdAt =
      (⟨"11111111-1111-1111-1111-111111111111", "Old", "d", none, "", "", "", 1, 1⟩ : Item).createdAt ∧
    (⟨"11111111-1111-1111-1111-111111111111", "Old", "new", none, "", "", "", 1, 7⟩ : Item).name =
      (⟨"11111111-1111-1111-1111-111111111111", "Old", "d", none, "", "", "", 1, 1⟩ : Item).name := by
  have hu : (update [⟨"11111111-1111-1111-1111-111111111111", "Old", "d", none, "", "", "", 1, 1⟩]
      "11111111-1111-1111-1111-111111111111" { description := some "new" } 7).1 =
      Except.ok ⟨"11111111-1111-1111-1111-111111111111", "Old", "new", none, "", "", "", 1, 7⟩ := by
    decide
  have hframe := claim_C7_partial_update_frame
    [⟨"11111111-1111-1111-1111-111111111111", "Old", "d", none, "", "", "", 1, 1⟩]
    "11111111-1111-1111-1111-111111111111" { description := some "new" } 7
    ⟨"11111111-1111-1111-1111-111111111111", "Old", "d", none, "", "", "", 1, 1⟩
    ⟨"11111111-1111-1111-1111-111111111111", "Old", "new", none, "", "", "", 1, 7⟩
    (by decide) hu
  exact ⟨hu, hframe.1, hframe.2.1, hframe.2.2.1 rfl⟩

/-- C10: an update whose dateOfBirth field is a blank string succeeds
and clears the stored date to absent. -/
theorem claim_C10_blank_dob_clears (store : List Item) (id : String)
    (dto : UpdateItemDto) (now : Nat) (item : Item) (s : String)
    (hfind : (findOne store id).1 = Except.ok item)
    (hdob : dto.dateOfBirth = some s) (hblank : jsTrim s = "") :
    ∃ r, (update store id dto now).1 = Except.ok r ∧ r.dateOfBirth = none := by
  rcases hp : findOne store id with ⟨res, b⟩
  rw [hp] at hfind
  dsimp only at hfind
  subst hfind
  have hprov : isDateOfBirthProvided (some s) = false := by
    simp [isDateOfBirthProvided, hblank]
  have hparse : parseDateOfBirth (some s) = none := by
    simp [parseDateOfBirth, hblank]
  have hdobE : applyDateOfBirth (applyDescription (applyName item dto) dto) dto =
      Except.ok { applyDescription (applyName item dto) dto with dateOfBirth := none } := by
    simp [applyDateOfBirth, hdob, hprov, hparse]
  unfold update
  rw [hp]
  dsimp only
  unfold applyUpdate
  rw [hdobE]
  dsimp only
  refine ⟨_, rfl, ?_⟩
  have hs := (applySex_frame
    { applyDescription (applyName item dto) dto with dateOfBirth := none } dto).2.2.2.1
  have hph := (applyPhoneNumber_frame (applySex
    { applyDescription (applyName item dto) dto with dateOfBirth := none } dto) dto).2.2.2.1
  have ha := (applyAddress_frame (applyPhoneNumber (applySex
    { applyDescription (applyName item dto) dto with dateOfBirth := none } dto) dto) dto).2.2.2.1
  simp [repoSaveTouch, ha, hph, hs]

/-- Witness for C10: a whitespace-only dateOfBirth clears a previously
stored date. -/
theorem claim_C10_witness :
    ∃ r, (update [⟨"11111111-1111-1111-1111-111111111111", "Old", "",
        some ⟨1990, 1, 15⟩, "", "", "", 1, 1⟩]
      "11111111-1111-1111-1111-111111111111" { dateOfBirth := some "  " } 9).1 =
      Except.ok r ∧ r.dateOfBirth = none :=
  claim_C10_blank_dob_clears
    [⟨"11111111-1111-1111-1111-111111111111", "Old", "", some ⟨1990, 1, 15⟩, "", "", "", 1, 1⟩]
    "11111111-1111-1111-1111-111111111111" { dateOfBirth := some "  " } 9
    ⟨"11111111-1111-1111-1111-111111111111", "Old", "", some ⟨1990, 1, 15⟩, "", "", "", 1, 1⟩
    "  " (by decide) rfl (by decide)

/-- C1: the code evaluated at the failing input.  Create rejects a
whitespace-only name with the fixed message, but update assigns an
explicitly supplied whitespace-only name unchecked and persists it,
violating the stored-name invariant the claim states. -/
theorem claim_C1_update_persists_blank_name :
    create { name := some "   " } "i" 0 =
      Except.error (badRequestBody NAME_REQUIRED_MESSAGE) ∧
    jsTrim "   " = "" ∧
    (update [⟨"11111111-1111-1111-1111-111111111111", "Old", "", none, "", "", "", 1, 1⟩]
        "11111111-1111-1111-1111-111111111111" { name := some "   " } 5).1 =
      Except.ok ⟨"11111111-1111-1111-1111-111111111111", "   ", "", none, "", "", "", 1, 5⟩ := by
  decide

/-- The method gate of the validator: for a body-bearing method the
result is the content-type check of the header value. -/
theorem getContentTypeValidationError_body (m : String) (h : HeaderValue)
    (hbm : BODY_METHODS.contains (jsToUpper m) = true) :
    getContentTypeValidationError m h =
      checkJsonContentType (headerToContentType h) := by
  unfold getContentTypeValidationError
  rw [hbm]
  rfl

/-- C3 (amended): for POST/PATCH/PUT, a blank coerced header or a first
`;`-segment that does not normalize to `application/json` gives the
Content-Type error; with a JSON first segment, no charset parameter, an
empty extracted charset, or a UTF-8 extracted charset gives no error,
and any other extracted charset gives the charset error — where the
extracted value is the text after the parameter's first `=`, trimmed,
lower-cased, and then stripped of surrounding quotes (in that
order). -/
theorem claim_C3_content_type_rules (m : String) (h : HeaderValue)
    (hm : m = "POST" ∨ m = "PATCH" ∨ m = "PUT") :
    (jsTrim (headerToContentType h) = "" →
      getContentTypeValidationError m h = some CONTENT_TYPE_ERROR_BODY) ∧
    (jsTrim (headerToContentType h) ≠ "" →
      jsToLower (jsTrim ((jsSplitOnChar ';' (headerToContentType h)).headD "")) ≠
        CONTENT_TYPE_JSON →
      getContentTypeValidationError m h = some CONTENT_TYPE_ERROR_BODY) ∧
    (jsTrim (headerToContentType h) ≠ "" →
      jsToLower (jsTrim ((jsSplitOnChar ';' (headerToContentType h)).headD "")) =
        CONTENT_TYPE_JSON →
      (((jsSplitOnChar ';' (headerToContentType h)).drop 1).find?
          (fun p => jsStartsWith (jsToLower (jsTrim p)) "charset=") = none →
        getContentTypeValidationError m h = none) ∧
      (∀ part,
        ((jsSplitOnChar ';' (headerToContentType h)).drop 1).find?
          (fun p => jsStartsWith (jsToLower (jsTrim p)) "charset=") = some part →
        (extractCharset part = "" → getContentTypeValidationError m h = none) ∧
        (SUPPORTED_CHARSETS.contains (extractCharset part) = true →
          getContentTypeValidationError m h = none) ∧
        (extractCharset part ≠ "" →
          SUPPORTED_CHARSETS.contains (extractCharset part) = false →
          getContentTypeValidationError m h = some CHARSET_ERROR_BODY))) := by
  have hbm : BODY_METHODS.contains (jsToUpper m) = true := by
    rcases hm with rfl | rfl | rfl <;> decide
  rw [getContentTypeValidationError_body m h hbm]
  refine ⟨?_, ?_, ?_⟩
  · intro h1
    unfold checkJsonContentType
    rw [if_pos h1]
  · intro h1 h2
    unfold checkJsonContentType
    rw [if_neg h1]
    dsimp only
    rw [if_pos h2]
  · intro h1 h2
    unfold checkJsonContentType
    rw [if_neg h1]
    dsimp only
    rw [if_neg (not_ne_iff.mpr h2)]
    constructor
    · intro hfind
      rw [hfind]
    · intro part hfind
      rw [hfind]
      dsimp only
      refine ⟨?_, ?_, ?_⟩
      · intro hext
        simp [hext]
      · intro hsup
        have hmem : extractCharset part ∈ SUPPORTED_CHARSETS := by simpa using hsup
        simp [hmem]
      · intro hne hsup
        have hmem : extractCharset part ∉ SUPPORTED_CHARSETS := by simpa using hsup
        simp [hne, hmem]

/-- Witness for C3 on the three no-error/error shapes: plain JSON
passes, an upper-case quoted UTF-8 charset passes, and ISO-8859-1 is
rejected with the charset error. -/
theorem claim_C3_witness :
    getContentTypeValidationError "POST" (.str "application/json") = none ∧
    getContentTypeValidationError "PATCH"
      (.str "Application/JSON; charset=\"UTF-8\"") = none ∧
    getContentTypeValidationError "PUT"
      (.str "application/json; charset=iso-8859-1") = some CHARSET_ERROR_BODY ∧
    getContentTypeValidationError "POST" .missing = some CONTENT_TYPE_ERROR_BODY := by
  refine ⟨?_, ?_, ?_, ?_⟩
  · exact ((claim_C3_content_type_rules "POST" (.str "application/json")
      (Or.inl rfl)).2.2 (by decide) (by decide)).1 (by decide)
  · exact (((claim_C3_content_type_rules "PATCH"
      (.str "Application/JSON; charset=\"UTF-8\"")
      (Or.inr (Or.inl rfl))).2.2 (by decide) (by decide)).2
      " charset=\"UTF-8\"" (by decide)).2.1 (by decide)
  · exact (((claim_C3_content_type_rules "PUT"
      (.str "application/json; charset=iso-8859-1")
      (Or.inr (Or.inr rfl))).2.2 (by decide) (by decide)).2
      " charset=iso-8859-1" (by decide)).2.2 (by decide) (by decide)
  · exact (claim_C3_content_type_rules "POST" .missing (Or.inl rfl)).1 (by decide)

/-- C3 counterexample to the claim's extraction order: for
`charset=" utf-8"` the claim's order (strip quotes, then trim, then
lower-case) extracts `utf-8`, so the claim predicts no error, but the
code trims and lower-cases before stripping quotes, extracts ` utf-8`,
and returns the charset error. -/
theorem claim_C3_counterexample :
    jsToLower (jsTrim (stripSurroundingQuotes "\" utf-8\"")) = "utf-8" ∧
    extractCharset " charset=\" utf-8\"" = " utf-8" ∧
    getContentTypeValidationError "POST"
      (.str "application/json; charset=\" utf-8\"") = some CHARSET_ERROR_BODY := by
  decide

/-! ## Decimal printing and the date round-trip -/

/-- One-digit decimal printing. -/
theorem decDigitsGo_one (f n : Nat) (hn : n < 10) (hf : 1 ≤ f) :
    decDigitsGo f n = [Nat.digitChar n] := by
  cases f with
  | zero => omega
  | succ f' => simp [decDigitsGo, hn]

/-- Two-digit decimal printing. -/
theorem decDigitsGo_two (f n : Nat) (h1 : 10 ≤ n) (h2 : n < 100) (hf : 2 ≤ f) :
    decDigitsGo f n = [Nat.digitChar (n / 10), Nat.digitChar (n % 10)] := by
  obtain ⟨f', rfl⟩ : ∃ f', f = f' + 1 := ⟨f - 1, by omega⟩
  simp only [decDigitsGo]
  rw [if_neg (by omega), decDigitsGo_one f' (n / 10) (by omega) (by omega)]
  rfl

/-- Three-digit decimal printing. -/
theorem decDigitsGo_three (f n : Nat) (h1 : 100 ≤ n) (h2 : n < 1000) (hf : 3 ≤ f) :
    decDigitsGo f n =
      [Nat.digitChar (n / 100), Nat.digitChar (n / 10 % 10), Nat.digitChar (n % 10)] := by
  obtain ⟨f', rfl⟩ : ∃ f', f = f' + 1 := ⟨f - 1, by omega⟩
  simp only [decDigitsGo]
  rw [if_neg (by omega), decDigitsGo_two f' (n / 10) (by omega) (by omega) (by omega)]
  have e1 : n / 10 / 10 = n / 100 := by omega
  rw [e1]
  rfl

/-- Four-digit decimal printing. -/
theorem decDigitsGo_four (f y : Nat) (h1 : 1000 ≤ y) (h2 : y < 10000) (hf : 4 ≤ f) :
    decDigitsGo f y =
      [Nat.digitChar (y / 1000), Nat.digitChar (y / 100 % 10),
       Nat.digitChar (y / 10 % 10), Nat.digitChar (y % 10)] := by
  obtain ⟨f', rfl⟩ : ∃ f', f = f' + 1 := ⟨f - 1, by omega⟩
  simp only [decDigitsGo]
  rw [if_neg (by omega), decDigitsGo_three f' (y / 10) (by omega) (by omega) (by omega)]
  have e1 : y / 10 / 100 = y / 1000 := by omega
  have e2 : y / 10 / 10 % 10 = y / 100 % 10 := by omega
  rw [e1, e2]
  rfl

/-- Four-digit form of `String(y)` for years 1000–9999. -/
theorem natToDecChars_four (y : Nat) (h1 : 1000 ≤ y) (h2 : y ≤ 9999) :
    natToDecChars y =
      [Nat.digitChar (y / 1000), Nat.digitChar (y / 100 % 10),
       Nat.digitChar (y / 10 % 10), Nat.digitChar (y % 10)] :=
  decDigitsGo_four (y + 1) y h1 (by omega) (by omega)

/-- The zero-padded two-digit field for any value below 100. -/
theorem pad2_data (n : Nat) (h : n < 100) :
    (padStart2 (natToDecString n)).data =
      [Nat.digitChar (n / 10), Nat.digitChar (n % 10)] := by
  by_cases hn : n < 10
  · have hc : natToDecChars n = [Nat.digitChar n] :=
      decDigitsGo_one (n + 1) n hn (by omega)
    have e1 : n / 10 = 0 := by omega
    have e2 : n % 10 = n := by omega
    simp [padStart2, natToDecString, hc, e1, e2, Nat.digitChar, List.replicate]
  · have hc : natToDecChars n = [Nat.digitChar (n / 10), Nat.digitChar (n % 10)] :=
      decDigitsGo_two (n + 1) n (by omega) h (by omega)
    simp [padStart2, natToDecString, hc, List.replicate]

/-- String append acts as list append on the underlying characters. -/
theorem string_data_append (a b : String) : (a ++ b).data = a.data ++ b.data := rfl

/-- Character-level form of the formatted date for four-digit years. -/
theorem formatDate_data (y m d : Nat) (hy1 : 1000 ≤ y) (hy2 : y ≤ 9999)
    (hm : m < 100) (hd : d < 100) :
    (formatDateToISODateString ⟨y, m, d⟩).data =
      [Nat.digitChar (y / 1000), Nat.digitChar (y / 100 % 10),
       Nat.digitChar (y / 10 % 10), Nat.digitChar (y % 10), '-',
       Nat.digitChar (m / 10), Nat.digitChar (m % 10), '-',
       Nat.digitChar (d / 10), Nat.digitChar (d % 10)] := by
  unfold formatDateToISODateString
  rw [string_data_append, string_data_append, string_data_append, string_data_append]
  rw [pad2_data m hm, pad2_data d hd]
  have hy : (natToDecString y).data =
      [Nat.digitChar (y / 1000), Nat.digitChar (y / 100 % 10),
       Nat.digitChar (y / 10 % 10), Nat.digitChar (y % 10)] := by
    simpa [natToDecString] using natToDecChars_four y hy1 hy2
  rw [hy]
  rfl

/-- Facts about decimal digit characters. -/
theorem digitChar_facts (k : Nat) (h : k < 10) :
    (Nat.digitChar k).isDigit = true ∧ digitVal (Nat.digitChar k) = k ∧
    jsIsWhitespace (Nat.digitChar k) = false ∧ Nat.digitChar k ≠ '-' := by
  interval_cases k <;> exact ⟨by decide, by decide, by decide, by decide⟩

/-- Dropping while a predicate fails everywhere on a list is the
identity. -/
theorem dropWhile_eq_self_of (p : Char → Bool) (l : List Char)
    (h : ∀ c ∈ l, p c = false) : l.dropWhile p = l := by
  cases l with
  | nil => rfl
  | cons c t => simp [List.dropWhile_cons, h c (List.mem_cons_self c t)]

/-- Trimming is the identity on strings with no JS whitespace. -/
theorem jsTrim_eq_self (s : String) (h : ∀ c ∈ s.data, jsIsWhitespace c = false) :
    jsTrim s = s := by
  obtain ⟨l⟩ := s
  unfold jsTrim jsTrimLeft jsTrimRight
  rw [dropWhile_eq_self_of _ _ h]
  rw [dropWhile_eq_self_of _ _ (fun c hc => h c (List.mem_reverse.mp hc))]
  rw [List.reverse_reverse]

/-- No character of a formatted date is JS whitespace. -/
theorem formatDate_no_ws (y m d : Nat) (hy1 : 1000 ≤ y) (hy2 : y ≤ 9999)
    (hm : m < 100) (hd : d < 100) :
    ∀ c ∈ (formatDateToISODateString ⟨y, m, d⟩).data, jsIsWhitespace c = false := by
  rw [formatDate_data y m d hy1 hy2 hm hd]
  intro c hc
  simp only [List.mem_cons, List.not_mem_nil, or_false] at hc
  rcases hc with rfl | rfl | rfl | rfl | rfl | rfl | rfl | rfl | rfl | rfl
  · exact (digitChar_facts _ (by omega)).2.2.1
  · exact (digitChar_facts _ (by omega)).2.2.1
  · exact (digitChar_facts _ (by omega)).2.2.1
  · exact (digitChar_facts _ (by omega)).2.2.1
  · decide
  · exact (digitChar_facts _ (by omega)).2.2.1
  · exact (digitChar_facts _ (by omega)).2.2.1
  · decide
  · exact (digitChar_facts _ (by omega)).2.2.1
  · exact (digitChar_facts _ (by omega)).2.2.1

/-- The month count of any month is at most 31 days. -/
theorem daysInMonth_le (y m : Nat) : daysInMonth y m ≤ 31 := by
  unfold daysInMonth
  split
  · split <;> omega
  · split <;> omega

/-- Parsing the formatted rendering of an in-range calendar date
recovers exactly that date. -/
theorem jsParseDate_format (y m d : Nat) (hy1 : 1000 ≤ y) (hy2 : y ≤ 9999)
    (hm1 : 1 ≤ m) (hm2 : m ≤ 12) (hd1 : 1 ≤ d) (hd2 : d ≤ daysInMonth y m) :
    jsParseDate (formatDateToISODateString ⟨y, m, d⟩) = some ⟨y, m, d⟩ := by
  have hd31 : d ≤ 31 := le_trans hd2 (daysInMonth_le y m)
  have g1 := digitChar_facts (y / 1000) (by omega)
  have g2 := digitChar_facts (y / 100 % 10) (by omega)
  have g3 := digitChar_facts (y / 10 % 10) (by omega)
  have g4 := digitChar_facts (y % 10) (by omega)
  have g5 := digitChar_facts (m / 10) (by omega)
  have g6 := digitChar_facts (m % 10) (by omega)
  have g7 := digitChar_facts (d / 10) (by omega)
  have g8 := digitChar_facts (d % 10) (by omega)
  unfold jsParseDate
  rw [formatDate_data y m d hy1 hy2 (by omega) (by omega)]
  dsimp only
  rw [if_pos (by simp [g1.1, g2.1, g3.1, g4.1, g5.1, g6.1, g7.1, g8.1])]
  rw [g1.2.1, g2.2.1, g3.2.1, g4.2.1, g5.2.1, g6.2.1, g7.2.1, g8.2.1]
  have ey : y / 1000 * 1000 + y / 100 % 10 * 100 + y / 10 % 10 * 10 + y % 10 = y := by
    omega
  have em : m / 10 * 10 + m % 10 = m := by omega
  have ed : d / 10 * 10 + d % 10 = d := by omega
  rw [ey, em, ed]
  rw [if_pos (by simp only [Bool.and_eq_true, decide_eq_true_eq]; omega)]
  unfold normalizeJsDate
  rw [if_pos hd2]

/-- Trimming a formatted date is the identity. -/
theorem jsTrim_format (y m d : Nat) (hy1 : 1000 ≤ y) (hy2 : y ≤ 9999)
    (hm : m < 100) (hd : d < 100) :
    jsTrim (formatDateToISODateString ⟨y, m, d⟩) = formatDateToISODateString ⟨y, m, d⟩ :=
  jsTrim_eq_self _ (formatDate_no_ws y m d hy1 hy2 hm hd)

/-- A formatted date is never the empty string. -/
theorem formatDate_ne_empty (y m d : Nat) (hy1 : 1000 ≤ y) (hy2 : y ≤ 9999)
    (hm : m < 100) (hd : d < 100) :
    formatDateToISODateString ⟨y, m, d⟩ ≠ "" := by
  intro h
  have := congrArg String.data h
  rw [formatDate_data y m d hy1 hy2 hm hd] at this
  cases this

/-- Parsing the date-of-birth of a formatted in-range calendar date. -/
theorem parseDateOfBirth_format (y m d : Nat) (hy1 : 1000 ≤ y) (hy2 : y ≤ 9999)
    (hm1 : 1 ≤ m) (hm2 : m ≤ 12) (hd1 : 1 ≤ d) (hd2 : d ≤ daysInMonth y m) :
    parseDateOfBirth (some (formatDateToISODateString ⟨y, m, d⟩)) = some ⟨y, m, d⟩ := by
  have hm' : m < 100 := by omega
  have hd' : d < 100 := by
    have := daysInMonth_le y m
    omega
  have htrim := jsTrim_format y m d hy1 hy2 hm' hd'
  unfold parseDateOfBirth
  dsimp only
  rw [if_neg (by rw [htrim]; exact formatDate_ne_empty y m d hy1 hy2 hm' hd')]
  rw [htrim]
  exact jsParseDate_format y m d hy1 hy2 hm1 hm2 hd1 hd2

/-- A formatted in-range calendar date counts as a provided
date-of-birth. -/
theorem isDateOfBirthProvided_format (y m d : Nat) (hy1 : 1000 ≤ y)
    (hy2 : y ≤ 9999) (hm : m < 100) (hd : d < 100) :
    isDateOfBirthProvided (some (formatDateToISODateString ⟨y, m, d⟩)) = true := by
  unfold isDateOfBirthProvided
  dsimp only
  rw [jsTrim_format y m d hy1 hy2 hm hd]
  simp [formatDate_ne_empty y m d hy1 hy2 hm hd]

/-- The round-trip check accepts a formatted in-range calendar date. -/
theorem isCalendarDateValid_format (y m d : Nat) (hy1 : 1000 ≤ y)
    (hy2 : y ≤ 9999) (hm : m < 100) (hd : d < 100) :
    isCalendarDateValid (jsTrim (formatDateToISODateString ⟨y, m, d⟩))
      ⟨y, m, d⟩ = true := by
  unfold isCalendarDateValid
  rw [jsTrim_format y m d hy1 hy2 hm hd]
  simp

/-- C2 (amended): a non-blank dateOfBirth that fails to parse, or that
parses but does not reformat byte-for-byte to the trimmed input, is
rejected by create and update with the fixed date error; a real
calendar date in `YYYY-MM-DD` form whose year needs no zero padding
(1000–9999) is accepted by create and update and stored as exactly that
date; an absent or blank input raises no date error (create stores no
date, a blank update input clears the date). -/
theorem claim_C2_date_validation (dto : CreateItemDto) (i : String) (t : Nat)
    (n : String) (hn : dto.name = some n) (hnv : jsTrim n ≠ "") :
    (∀ s, dto.dateOfBirth = some s → jsTrim s ≠ "" →
      parseDateOfBirth (some s) = none →
      create dto i t = Except.error (badRequestBody INVALID_DATE_OF_BIRTH_MESSAGE)) ∧
    (∀ s p, dto.dateOfBirth = some s → jsTrim s ≠ "" →
      parseDateOfBirth (some s) = some p →
      formatDateToISODateString p ≠ jsTrim s →
      create dto i t = Except.error (badRequestBody INVALID_DATE_OF_BIRTH_MESSAGE)) ∧
    (∀ y m d, 1000 ≤ y → y ≤ 9999 → 1 ≤ m → m ≤ 12 → 1 ≤ d →
      d ≤ daysInMonth y m →
      dto.dateOfBirth = some (formatDateToISODateString ⟨y, m, d⟩) →
      ∃ it, create dto i t = Except.ok it ∧ it.dateOfBirth = some ⟨y, m, d⟩) ∧
    ((dto.dateOfBirth = none ∨ ∃ s, dto.dateOfBirth = some s ∧ jsTrim s = "") →
      ∃ it, create dto i t = Except.ok it ∧ it.dateOfBirth = none) ∧
    (∀ store id (dto2 : UpdateItemDto) now item s,
      (findOne store id).1 = Except.ok item → dto2.dateOfBirth = some s →
      jsTrim s ≠ "" → parseDateOfBirth (some s) = none →
      (update store id dto2 now).1 =
        Except.error (badRequestBody INVALID_DATE_OF_BIRTH_MESSAGE)) ∧
    (∀ store id (dto2 : UpdateItemDto) now item s p,
      (findOne store id).1 = Except.ok item → dto2.dateOfBirth = some s →
      jsTrim s ≠ "" → parseDateOfBirth (some s) = some p →
      formatDateToISODateString p ≠ jsTrim s →
      (update store id dto2 now).1 =
        Except.error (badRequestBody INVALID_DATE_OF_BIRTH_MESSAGE)) ∧
    (∀ store id (dto2 : UpdateItemDto) now item y m d,
      (findOne store id).1 = Except.ok item →
      1000 ≤ y → y ≤ 9999 → 1 ≤ m → m ≤ 12 → 1 ≤ d → d ≤ daysInMonth y m →
      dto2.dateOfBirth = some (formatDateToISODateString ⟨y, m, d⟩) →
      ∃ r, (update store id dto2 now).1 = Except.ok r ∧
        r.dateOfBirth = some ⟨y, m, d⟩) := by
  refine ⟨?_, ?_, ?_, ?_, ?_, ?_, ?_⟩
  · intro s hdob hnb hparse
    have hprov : isDateOfBirthProvided dto.dateOfBirth = true := by
      rw [hdob]
      simp [isDateOfBirthProvided, hnb]
    have hparse' : parseDateOfBirth dto.dateOfBirth = none := by
      rw [hdob]
      exact hparse
    unfold create
    rw [hn]
    dsimp only
    rw [if_neg hnv, hparse', if_pos hprov]
    rw [hdob]
  · intro s p hdob hnb hparse hmis
    have hprov : isDateOfBirthProvided dto.dateOfBirth = true := by
      rw [hdob]
      simp [isDateOfBirthProvided, hnb]
    have hparse' : parseDateOfBirth dto.dateOfBirth = some p := by
      rw [hdob]
      exact hparse
    have hval : isCalendarDateValid (jsTrim s) p = false := by
      unfold isCalendarDateValid
      simp [hmis]
    unfold create
    rw [hn]
    dsimp only
    rw [if_neg hnv, hparse', if_pos hprov]
    rw [hdob]
    dsimp only
    rw [hval]
    rfl
  · intro y m d hy1 hy2 hm1 hm2 hd1 hd2 hdob
    have hm' : m < 100 := by omega
    have hd' : d < 100 := by
      have := daysInMonth_le y m
      omega
    have hprov : isDateOfBirthProvided dto.dateOfBirth = true := by
      rw [hdob]
      exact isDateOfBirthProvided_format y m d hy1 hy2 hm' hd'
    have hparse' : parseDateOfBirth dto.dateOfBirth = some ⟨y, m, d⟩ := by
      rw [hdob]
      exact parseDateOfBirth_format y m d hy1 hy2 hm1 hm2 hd1 hd2
    have hval := isCalendarDateValid_format y m d hy1 hy2 hm' hd'
    unfold create
    rw [hn]
    dsimp only
    rw [if_neg hnv, hparse', if_pos hprov]
    rw [hdob]
    dsimp only
    rw [hval]
    exact ⟨_, rfl, rfl⟩
  · intro hcase
    rcases hcase with hdob | ⟨s, hdob, hblank⟩
    · have hprov : isDateOfBirthProvided dto.dateOfBirth = false := by
        rw [hdob]
        rfl
      have hparse' : parseDateOfBirth dto.dateOfBirth = none := by
        rw [hdob]
        rfl
      unfold create
      rw [hn]
      dsimp only
      rw [if_neg hnv, hparse', if_neg (by simp [hprov])]
      exact ⟨_, rfl, rfl⟩
    · have hprov : isDateOfBirthProvided dto.dateOfBirth = false := by
        rw [hdob]
        simp [isDateOfBirthProvided, hblank]
      have hparse' : parseDateOfBirth dto.dateOfBirth = none := by
        rw [hdob]
        simp [parseDateOfBirth, hblank]
      unfold create
      rw [hn]
      dsimp only
      rw [if_neg hnv, hparse', if_neg (by simp [hprov])]
      exact ⟨_, rfl, rfl⟩
  · intro store id dto2 now item s hfind hdob hnb hparse
    rcases hp : findOne store id with ⟨res, b⟩
    rw [hp] at hfind
    dsimp only at hfind
    subst hfind
    have hprov : isDateOfBirthProvided (some s) = true := by
      simp [isDateOfBirthProvided, hnb]
    have herr : applyDateOfBirth (applyDescription (applyName item dto2) dto2) dto2 =
        Except.error (badRequestBody INVALID_DATE_OF_BIRTH_MESSAGE) := by
      simp [applyDateOfBirth, hdob, hprov, hparse]
    unfold update
    rw [hp]
    dsimp only
    unfold applyUpdate
    rw [herr]
  · intro store id dto2 now item s p hfind hdob hnb hparse hmis
    rcases hp : findOne store id with ⟨res, b⟩
    rw [hp] at hfind
    dsimp only at hfind
    subst hfind
    have hprov : isDateOfBirthProvided (some s) = true := by
      simp [isDateOfBirthProvided, hnb]
    have hval : isCalendarDateValid (jsTrim s) p = false := by
      unfold isCalendarDateValid
      simp [hmis]
    have herr : applyDateOfBirth (applyDescription (applyName item dto2) dto2) dto2 =
        Except.error (badRequestBody INVALID_DATE_OF_BIRTH_MESSAGE) := by
      simp [applyDateOfBirth, hdob, hprov, hparse, hval]
    unfold update
    rw [hp]
    dsimp only
    unfold applyUpdate
    rw [herr]
  · intro store id dto2 now item y m d hfind hy1 hy2 hm1 hm2 hd1 hd2 hdob
    rcases hp : findOne store id with ⟨res, b⟩
    rw [hp] at hfind
    dsimp only at hfind
    subst hfind
    have hm' : m < 100 := by omega
    have hd' : d < 100 := by
      have := daysInMonth_le y m
      omega
    have hprov := isDateOfBirthProvided_format y m d hy1 hy2 hm' hd'
    have hparse' := parseDateOfBirth_format y m d hy1 hy2 hm1 hm2 hd1 hd2
    have hval := isCalendarDateValid_format y m d hy1 hy2 hm' hd'
    have hok : applyDateOfBirth (applyDescription (applyName item dto2) dto2) dto2 =
        Except.ok { applyDescription (applyName item dto2) dto2 with
          dateOfBirth := some ⟨y, m, d⟩ } := by
      simp [applyDateOfBirth, hdob, hprov, hparse', hval]
    unfold update
    rw [hp]
    dsimp only
    unfold applyUpdate
    rw [hok]
    dsimp only
    refine ⟨_, rfl, ?_⟩
    have hs := (applySex_frame
      { applyDescription (applyName item dto2) dto2 with
        dateOfBirth := some ⟨y, m, d⟩ } dto2).2.2.2.1
    have hph := (applyPhoneNumber_frame (applySex
      { applyDescription (applyName item dto2) dto2 with
        dateOfBirth := some ⟨y, m, d⟩ } dto2) dto2).2.2.2.1
    have ha := (applyAddress_frame (applyPhoneNumber (applySex
      { applyDescription (applyName item dto2) dto2 with
        dateOfBirth := some ⟨y, m, d⟩ } dto2) dto2) dto2).2.2.2.1
    simp [repoSaveTouch, ha, hph, hs]

/-- Witness for C2: `"1990-01-15"` is accepted by create and stored as
the calendar date 1990-01-15. -/
theorem claim_C2_witness :
    ∃ it, create { name := some "A", dateOfBirth := some "1990-01-15" } "i" 0 =
      Except.ok it ∧ it.dateOfBirth = some ⟨1990, 1, 15⟩ :=
  (claim_C2_date_validation
    { name := some "A", dateOfBirth := some "1990-01-15" } "i" 0 "A"
    rfl (by decide)).2.2.1 1990 1 15 (by decide) (by decide) (by decide)
    (by decide) (by decide) (by decide) (by decide)

/-- C2 counterexample: `"0099-01-15"` is a real calendar date written in
zero-padded `YYYY-MM-DD` form — it parses to the date 99-01-15 — yet
create rejects it, because the year is reformatted without zero padding
(`"99-01-15"`) and the byte-for-byte comparison fails. -/
theorem claim_C2_counterexample :
    jsParseDate "0099-01-15" = some ⟨99, 1, 15⟩ ∧
    (1 ≤ 1 ∧ 1 ≤ 12 ∧ 1 ≤ 15 ∧ 15 ≤ daysInMonth 99 1) ∧
    formatDateToISODateString ⟨99, 1, 15⟩ = "99-01-15" ∧
    create { name := some "A", dateOfBirth := some "0099-01-15" } "i" 0 =
      Except.error (badRequestBody INVALID_DATE_OF_BIRTH_MESSAGE) := by
  decide

end ItemsApi
